import Mathlib

/-!
Verification development for the `DataProcessor` facade
(`src/src/main.cpp`).

The embedding covers the parts of the code the checked claims are about:

* `generateHash` (main.cpp:458-495): SHA-256 via OpenSSL EVP, hex-encoded.
  The EVP digest primitives are third-party code; they are modelled by a
  pure SHA-256 implementation (the function `EVP_sha256` computes) plus an
  `EvpEnv` record saying which of the four EVP calls succeeds, mirroring
  the four early-return error branches of the source.
* `processDataAsync` / `waitForCompletion` (main.cpp:498-509): a detached
  thread per task and a fixed 100 ms sleep.  Modelled by a timed state:
  each detached thread gets a scheduler-chosen completion duration (the
  source does not determine it), and `waitForCompletion` advances the
  wall clock by exactly 100 ms, touching no task state — which is all the
  source body `sleep_for(milliseconds(100))` does.
* `decompressFile` (main.cpp:628-631) and the error-state accessors
  (main.cpp:524-534).
-/

namespace DataProc

/-! ## SHA-256, the function `EVP_sha256` computes, on byte lists -/

/-- `2^32`, the word modulus of SHA-256 arithmetic. -/
def w32 : Nat := 4294967296

/-- 32-bit right rotation. -/
def rotr (n x : Nat) : Nat := ((x >>> n) ||| (x <<< (32 - n))) % w32

/-- 32-bit bitwise complement (arguments are kept below `2^32`). -/
def bnot32 (x : Nat) : Nat := x ^^^ 4294967295

/-- SHA-256 `Ch(x,y,z)`. -/
def ch (x y z : Nat) : Nat := (x &&& y) ^^^ (bnot32 x &&& z)

/-- SHA-256 `Maj(x,y,z)`. -/
def maj (x y z : Nat) : Nat := (x &&& y) ^^^ (x &&& z) ^^^ (y &&& z)

/-- SHA-256 `Σ₀`. -/
def bigSigma0 (x : Nat) : Nat := rotr 2 x ^^^ rotr 13 x ^^^ rotr 22 x

/-- SHA-256 `Σ₁`. -/
def bigSigma1 (x : Nat) : Nat := rotr 6 x ^^^ rotr 11 x ^^^ rotr 25 x

/-- SHA-256 `σ₀`. -/
def smallSigma0 (x : Nat) : Nat := rotr 7 x ^^^ rotr 18 x ^^^ (x >>> 3)

/-- SHA-256 `σ₁`. -/
def smallSigma1 (x : Nat) : Nat := rotr 17 x ^^^ rotr 19 x ^^^ (x >>> 10)

/-- The 64 SHA-256 round constants (FIPS 180-4 §4.2.2, in decimal). -/
def sha256K : List Nat :=
  [1116352408, 1899447441, 3049323471, 3921009573, 961987163, 1508970993,
   2453635748, 2870763221, 3624381080, 310598401, 607225278, 1426881987,
   1925078388, 2162078206, 2614888103, 3248222580, 3835390401, 4022224774,
   264347078, 604807628, 770255983, 1249150122, 1555081692, 1996064986,
   2554220882, 2821834349, 2952996808, 3210313671, 3336571891, 3584528711,
   113926993, 338241895, 666307205, 773529912, 1294757372, 1396182291,
   1695183700, 1986661051, 2177026350, 2456956037, 2730485921, 2820302411,
   3259730800, 3345764771, 3516065817, 3600352804, 4094571909, 275423344,
   430227734, 506948616, 659060556, 883997877, 958139571, 1322822218,
   1537002063, 1747873779, 1955562222, 2024104815, 2227730452, 2361852424,
   2428436474, 2756734187, 3204031479, 3329325298]

/-- The eight SHA-256 working registers `a`..`h`. -/
structure Hash8 where
  a : Nat
  b : Nat
  c : Nat
  d : Nat
  e : Nat
  f : Nat
  g : Nat
  h : Nat

/-- The SHA-256 initial hash value `H⁽⁰⁾` (FIPS 180-4 §5.3.3, in decimal). -/
def initHash : Hash8 :=
  ⟨1779033703, 3144134277, 1013904242, 2773480762,
   1359893119, 2600822924, 528734635, 1541459225⟩

/-- One SHA-256 compression round with constant `ki` and schedule word `wi`. -/
def sha256Round (st : Hash8) (ki wi : Nat) : Hash8 :=
  let t1 := (st.h + bigSigma1 st.e + ch st.e st.f st.g + ki + wi) % w32
  let t2 := (bigSigma0 st.a + maj st.a st.b st.c) % w32
  ⟨(t1 + t2) % w32, st.a, st.b, st.c, (st.d + t1) % w32, st.e, st.f, st.g⟩

/-- Component-wise addition of register files, mod `2^32`
(the feed-forward step after a block is compressed). -/
def add8 (x y : Hash8) : Hash8 :=
  ⟨(x.a + y.a) % w32, (x.b + y.b) % w32, (x.c + y.c) % w32, (x.d + y.d) % w32,
   (x.e + y.e) % w32, (x.f + y.f) % w32, (x.g + y.g) % w32, (x.h + y.h) % w32⟩

/-- Extend a 16-word block to the 64-word message schedule,
appending `fuel` further words (`fuel = 48` in `sha256`). -/
def extendSchedule (ws : List Nat) : Nat → List Nat
  | 0 => ws
  | Nat.succ fuel =>
      let i := ws.length
      let wNew := (smallSigma1 (ws.getD (i - 2) 0) + ws.getD (i - 7) 0 +
                   smallSigma0 (ws.getD (i - 15) 0) + ws.getD (i - 16) 0) % w32
      extendSchedule (ws ++ [wNew]) fuel

/-- Compress one message schedule into the register file. -/
def compressBlock (st : Hash8) (ws : List Nat) : Hash8 :=
  (ws.zip sha256K).foldl (fun s p => sha256Round s p.2 p.1) st

/-- Big-endian bytes of one 32-bit word. -/
def wordBytes (w : Nat) : List Nat :=
  [(w >>> 24) % 256, (w >>> 16) % 256, (w >>> 8) % 256, w % 256]

/-- The 32 digest bytes of a final register file, big-endian per word. -/
def digestBytes (st : Hash8) : List Nat :=
  wordBytes st.a ++ wordBytes st.b ++ wordBytes st.c ++ wordBytes st.d ++
  wordBytes st.e ++ wordBytes st.f ++ wordBytes st.g ++ wordBytes st.h

/-- Big-endian 8-byte encoding of the message bit length. -/
def lenBytes (bitLen : Nat) : List Nat :=
  [(bitLen >>> 56) % 256, (bitLen >>> 48) % 256, (bitLen >>> 40) % 256,
   (bitLen >>> 32) % 256, (bitLen >>> 24) % 256, (bitLen >>> 16) % 256,
   (bitLen >>> 8) % 256, bitLen % 256]

/-- SHA-256 padding: `0x80`, zeros to 56 mod 64, then the 64-bit bit length. -/
def padMessage (msg : List Nat) : List Nat :=
  let z := (119 - msg.length % 64) % 64
  msg ++ [128] ++ List.replicate z 0 ++ lenBytes (8 * msg.length)

/-- Group bytes into big-endian 32-bit words (the padded message's length
is a multiple of 4, so no bytes are left over). -/
def bytesToWords : List Nat → List Nat
  | b0 :: b1 :: b2 :: b3 :: rest =>
      ((b0 <<< 24) ||| (b1 <<< 16) ||| (b2 <<< 8) ||| b3) :: bytesToWords rest
  | _ => []

/-- Split a list into chunks of `n + 1` elements. -/
def chunkPos (n : Nat) (l : List α) : List (List α) :=
  match l with
  | [] => []
  | x :: xs => (x :: xs).take (n + 1) :: chunkPos n ((x :: xs).drop (n + 1))
termination_by l.length
decreasing_by simp [List.length_drop]; omega

/-- SHA-256 of a byte list: pad, split into 16-word blocks, compress each
with feed-forward, and emit the 32 digest bytes. -/
def sha256 (msg : List Nat) : List Nat :=
  let blocks := chunkPos 15 (bytesToWords (padMessage msg))
  digestBytes (blocks.foldl (fun st b => add8 st (compressBlock st (extendSchedule b 48))) initHash)

/-! ## Hex encoding (main.cpp:488-491)

`ss << std::hex << std::setw(2) << std::setfill('0') << (int)hash[i]`
prints each byte as exactly two lowercase hex digits. -/

/-- One lowercase hex digit (`std::hex` prints lowercase by default). -/
def hexChar (n : Nat) : Char :=
  if n < 10 then Char.ofNat (48 + n) else Char.ofNat (87 + n)

/-- The two lowercase hex digits of a byte, high nibble first. -/
def byteHex (b : Nat) : List Char := [hexChar (b / 16), hexChar (b % 16)]

/-- Hex-encode a byte list as a string (the stringstream loop of the source). -/
def hexEncode (bs : List Nat) : String := String.mk (bs.map byteHex).flatten

/-- Is `c` one of `0`..`9`, `a`..`f`? -/
def isLowerHexDigit (c : Char) : Bool :=
  (48 ≤ c.toNat && c.toNat ≤ 57) || (97 ≤ c.toNat && c.toNat ≤ 102)

/-! ## generateHash (main.cpp:458-495) -/

/-- Which of the four OpenSSL EVP calls made by `generateHash` succeed.
The EVP library is outside this repository; each flag stands for the
corresponding call returning non-null / 1. -/
structure EvpEnv where
  mdCtxNewOk : Bool
  digestInitOk : Bool
  digestUpdateOk : Bool
  digestFinalOk : Bool

/-- The environment in which every EVP call succeeds (the normal case:
OpenSSL's SHA-256 digest operations do not fail on valid contexts). -/
def evpOk : EvpEnv := ⟨true, true, true, true⟩

/-- The UTF-8 bytes of a string, as `data.c_str()`/`data.size()` expose them. -/
def strBytes (s : String) : List Nat := s.toUTF8.toList.map (fun b => b.toNat)

/-- `DataProcessor::Impl::generateHash` (main.cpp:458-495): four early
returns of `""` on EVP failure, otherwise the lowercase-hex SHA-256
digest of the input bytes. -/
def generateHash (env : EvpEnv) (data : String) : String :=
  if !env.mdCtxNewOk then ""
  else if !env.digestInitOk then ""
  else if !env.digestUpdateOk then ""
  else if !env.digestFinalOk then ""
  else hexEncode (sha256 (strBytes data))

/-- `sha256hex data` is the hex SHA-256 digest of `data`; by definition it
is what `generateHash` returns when every EVP call succeeds. -/
def sha256hex (data : String) : String := hexEncode (sha256 (strBytes data))

/-! ## The async dispatcher (main.cpp:498-509)

`processDataAsync` spawns a detached `std::thread` whose body is
`result = generateHash(data); callback(result)` and returns at once.
`waitForCompletion` is exactly `sleep_for(milliseconds(100))`.

The timed model: the wall clock is a `Nat` of milliseconds.  A detached
thread finishes (its callback returns) after a duration the scheduler
chooses — the source imposes no bound on it — so each task carries its
submit time and that scheduler-chosen duration.  Spawning does not move
the clock (the spawning call returns immediately); the only source
operation that moves it is the 100 ms sleep, which reads and writes
nothing else. -/

/-- One detached-thread task: its payload, the wall-clock time at which
`processDataAsync` spawned it, and the scheduler-chosen number of
milliseconds until its thread body (hash + callback) has finished. -/
structure AsyncTask where
  payload : String
  submitTime : Nat
  duration : Nat

/-- The dispatcher-relevant state of a `DataProcessor::Impl`: the wall
clock and every task spawned so far.  (The source has no counter, queue,
mutex use, or condition-variable use backing these two methods; `mutex_`
and `cv_` are declared at main.cpp:603-604 but never touched.) -/
structure ProcessorState where
  now : Nat
  tasks : List AsyncTask

/-- A fresh `DataProcessor` at time 0 with no tasks. -/
def initState : ProcessorState := ⟨0, []⟩

/-- `DataProcessor::Impl::processDataAsync` (main.cpp:498-504): spawn a
detached thread for `data` and return immediately (the clock does not
move for the caller).  `d` is the scheduler-chosen completion duration
of the new thread. -/
def processDataAsync (s : ProcessorState) (data : String) (d : Nat) : ProcessorState :=
  { s with tasks := s.tasks ++ [⟨data, s.now, d⟩] }

/-- `DataProcessor::Impl::waitForCompletion` (main.cpp:506-509): the
body is `std::this_thread::sleep_for(std::chrono::milliseconds(100))`
and nothing else — it advances the wall clock by exactly 100 ms and
neither reads nor writes any task state. -/
def waitForCompletion (s : ProcessorState) : ProcessorState :=
  { s with now := s.now + 100 }

/-- Has this task's thread body finished (callback returned) by `time`? -/
def isCompleted (t : AsyncTask) (time : Nat) : Bool :=
  t.submitTime + t.duration ≤ time

/-- The number of tasks submitted but not yet completed at the state's
current time — the spec's "outstanding-task counter", reconstructed from
the model state (the source itself maintains no such counter). -/
def outstandingCount (s : ProcessorState) : Nat :=
  (s.tasks.filter (fun t => !isCompleted t s.now)).length

/-- The calls the detached-thread body spawned for `data` makes to its
callback, in order (main.cpp:499-503): the body computes
`result = generateHash(data)` and then performs the single call
`callback(result)` — straight-line code, one call site, no loop. -/
def threadBodyCalls (env : EvpEnv) (data : String) : List String :=
  [generateHash env data]

/-- All callback invocations of a run in which every spawned thread runs
its body to completion, in task order: each task contributes the calls
its own thread body makes. -/
def fullTrace (env : EvpEnv) (s : ProcessorState) : List String :=
  (s.tasks.map (fun t => threadBodyCalls env t.payload)).flatten

/-- C++ exception flow of the detached-thread body (main.cpp:499-503).
The body runs the work step and then the callback with **no try/catch**,
so the model is parametric in a work step that may raise: `.ok` returns
the callback invocations the body performed, `.error` means the raised
exception escaped the thread body uncaught (in C++, an exception leaving
the top-level function of a `std::thread` calls `std::terminate`).  The
source instantiates the work step with `generateHash`, but any callee
(allocation in the hashing path, the logging call) may raise. -/
def threadBodyExc (work : String → Except String String) (data : String) :
    Except String (List String) := do
  let result ← work data
  pure [result]

/-! ## decompressFile (main.cpp:628-631) -/

/-- `DataProcessor::decompressFile` (main.cpp:628-631): the entire body
is `return true;` under a comment saying an implementation would use
inflate.  It takes both paths and performs no file operation at all, so
in the embedding it is a pure constant function of its two arguments. -/
def decompressFile (inputPath outputPath : String) : Bool := true

/-! ## Error state (main.cpp:524-534) -/

/-- The error state of a `DataProcessor::Impl`: the `lastError_` string
(main.cpp:602). -/
structure ErrorState where
  lastError : String

/-- `getLastError` (main.cpp:524-526): returns `lastError_`; `const`, so
it cannot modify the state. -/
def getLastError (s : ErrorState) : String := s.lastError

/-- `hasErrors` (main.cpp:528-530): `return !lastError_.empty();`;
`const`, so it cannot modify the state. -/
def hasErrors (s : ErrorState) : Bool := !s.lastError.isEmpty

/-- `clearErrors` (main.cpp:532-534): `lastError_.clear();`. -/
def clearErrors (s : ErrorState) : ErrorState := { s with lastError := "" }

/-! ## Helper lemmas -/

/-- A final register file always yields exactly 32 digest bytes. -/
theorem digestBytes_length (st : Hash8) : (digestBytes st).length = 32 := rfl

/-- SHA-256 emits exactly 32 bytes for every message. -/
theorem sha256_length (msg : List Nat) : (sha256 msg).length = 32 := rfl

/-- Every digest byte is below 256 (each is produced by `% 256`). -/
theorem digestBytes_lt (st : Hash8) : ∀ b ∈ digestBytes st, b < 256 := by
  intro b hb
  simp [digestBytes, wordBytes] at hb
  omega

/-- Every SHA-256 output byte is below 256. -/
theorem sha256_lt (msg : List Nat) : ∀ b ∈ sha256 msg, b < 256 := by
  intro b hb
  exact digestBytes_lt _ b hb

/-- List-level length of the hex encoding: two characters per byte. -/
theorem hexChars_length (bs : List Nat) :
    ((bs.map byteHex).flatten).length = 2 * bs.length := by
  induction bs with
  | nil => rfl
  | cons b t ih => simp [byteHex, ih]; omega

/-- The hex encoding of `n` bytes has `2 * n` characters. -/
theorem hexEncode_length (bs : List Nat) :
    (hexEncode bs).length = 2 * bs.length :=
  hexChars_length bs

/-- `hexChar` of a nibble is a lowercase hex digit. -/
theorem hexChar_isLower : ∀ n, n < 16 → isLowerHexDigit (hexChar n) = true := by
  decide

/-- Both hex digits of a byte are lowercase hex digits. -/
theorem byteHex_lower (b : Nat) (hb : b < 256) :
    ∀ c ∈ byteHex b, isLowerHexDigit c = true := by
  intro c hc
  simp [byteHex] at hc
  rcases hc with rfl | rfl
  · exact hexChar_isLower _ (by omega)
  · exact hexChar_isLower _ (by omega)

/-- Every character of the hex encoding of bytes is a lowercase hex digit. -/
theorem hexEncode_all_lower (bs : List Nat) (h : ∀ b ∈ bs, b < 256) :
    (hexEncode bs).data.all isLowerHexDigit = true := by
  rw [List.all_eq_true]
  intro c hc
  have hc2 : c ∈ (bs.map byteHex).flatten := hc
  rw [List.mem_flatten] at hc2
  obtain ⟨l, hl, hcl⟩ := hc2
  rw [List.mem_map] at hl
  obtain ⟨b, hb, rfl⟩ := hl
  exact byteHex_lower b (h b hb) c hcl

/-- `generateHash` either hits one of its four EVP error branches and
returns `""`, or returns the hex SHA-256 digest of its input. -/
theorem generateHash_empty_or_hex (env : EvpEnv) (data : String) :
    generateHash env data = "" ∨ generateHash env data = sha256hex data := by
  rcases env with ⟨cn, di, du, df⟩
  cases cn <;> cases di <;> cases du <;> cases df <;>
    simp [generateHash, sha256hex]

/-- Flattening a map of singletons is the map itself. -/
theorem flatten_map_singleton (f : α → β) (l : List α) :
    (l.map (fun x => [f x])).flatten = l.map f := by
  induction l with
  | nil => rfl
  | cons x t ih => simp [ih]

/-! ## Claim theorems -/

/-- C1: the claim says `waitForCompletion` returns only after every task
submitted before the call has completed (its callback has returned).
The source body is a fixed 100 ms sleep, so a thread whose body takes
200 ms is still incomplete when `waitForCompletion` returns: submitting
one such task at time 0 and calling `waitForCompletion` leaves the task
set untouched and returns at time 100 with the task not completed —
1 outstanding task.  This refutes the claim on the code; the spec
explicitly names this fixed-delay wait as the source defect. -/
theorem c1_wait_returns_while_task_incomplete :
    (waitForCompletion (processDataAsync initState ("Async test data") 200)).tasks =
      (processDataAsync initState ("Async test data") 200).tasks ∧
    isCompleted ⟨"Async test data", 0, 200⟩
      (waitForCompletion (processDataAsync initState ("Async test data") 200)).now = false ∧
    outstandingCount (waitForCompletion (processDataAsync initState ("Async test data") 200)) = 1 :=
  ⟨rfl, rfl, rfl⟩

/-- C2: the claim says the wait-for-all operation does not use a fixed
sleep but blocks until an outstanding-task counter reaches zero.  In the
source, `waitForCompletion` is exactly `sleep_for(milliseconds(100))`:
for every state it advances the clock by the constant 100 and neither
reads nor writes any task state, and it returns while the outstanding
count is still 1 — so its completion mechanism is a fixed sleep, not a
counter condition.  This refutes the claim on the code. -/
theorem c2_wait_is_fixed_delay_not_counter :
    (∀ s : ProcessorState, waitForCompletion s = ⟨s.now + 100, s.tasks⟩) ∧
    outstandingCount (waitForCompletion ⟨0, [⟨"payload-a", 0, 300⟩]⟩) = 1 :=
  ⟨fun _ => rfl, rfl⟩

/-- C3: every task submitted via `processDataAsync` has its callback
invoked exactly once, with the task's result.  The detached-thread body
(main.cpp:499-503) is straight-line code with a single `callback(result)`
call, so a run in which every spawned thread executes its body yields
exactly one callback invocation per task, in task order, each carrying
`generateHash` of that task's payload: the full trace is precisely the
map of the hash over the submitted tasks, and its length is the number
of tasks. -/
theorem c3_each_callback_exactly_once (env : EvpEnv) (s : ProcessorState) :
    fullTrace env s = s.tasks.map (fun t => generateHash env t.payload) ∧
    (fullTrace env s).length = s.tasks.length := by
  have h : fullTrace env s = s.tasks.map (fun t => generateHash env t.payload) :=
    flatten_map_singleton _ _
  exact ⟨h, by rw [h, List.length_map]⟩

/-- C4: the claim says an error raised by the work function is caught at
the worker boundary and delivered to the callback as an error result.
The detached-thread body (main.cpp:499-503) has no try/catch: in the
exception-flow model, a work step that raises makes the whole body
propagate the error — the callback is never invoked and the exception
escapes the thread uncaught (in C++ this calls `std::terminate`).  The
second conjunct ties the model to the normal path: a non-raising work
step produces exactly the body's single callback invocation.  This
refutes the claim on the code; the spec itself says the source runs the
hashing work with no fault boundary. -/
theorem c4_error_escapes_thread_uncaught :
    threadBodyExc (fun _ => Except.error ("bad_alloc")) ("Async test data") =
      Except.error ("bad_alloc") ∧
    (∀ env data, threadBodyExc (fun d => Except.ok (generateHash env d)) data =
      Except.ok (threadBodyCalls env data)) :=
  ⟨rfl, fun _ _ => rfl⟩

/-- C5: the claim is the conjunction "the outstanding count is never
negative" (true: the count is a list length, hence a natural number)
and "the wait-for-all operation returns only when the count is zero"
(false: after submitting one task of duration 150 at time 0,
`waitForCompletion` returns at time 100 with the count still 1).  The
second conjunct refutes the claim on the code. -/
theorem c5_count_nonneg_but_wait_ignores_it :
    0 ≤ outstandingCount (waitForCompletion (processDataAsync initState ("slow task") 150)) ∧
    outstandingCount (waitForCompletion (processDataAsync initState ("slow task") 150)) ≠ 0 :=
  ⟨Nat.zero_le _, by decide⟩

/-- C6: the claim says `waitForCompletion` with zero outstanding tasks
returns immediately, with no delay.  On a fresh processor the
outstanding count is 0, yet the call still advances the wall clock by
the full 100 ms sleep — a delay, not an immediate return.  This refutes
the claim on the code (it does confirm the no-deadlock half: the sleep
always returns). -/
theorem c6_wait_sleeps_even_with_zero_outstanding :
    outstandingCount initState = 0 ∧
    (waitForCompletion initState).now = initState.now + 100 ∧
    (waitForCompletion initState).now ≠ initState.now :=
  ⟨rfl, rfl, by decide⟩

/-- C7: the result delivered to the callback is exactly
`generateHash(data)` (the body computes it and passes it to the single
callback call), and with OpenSSL's digest calls succeeding — their
normal behaviour, which is why the spec says this operation always
"succeeds" — that value is the hex SHA-256 digest of the input: a
64-character string, never empty, so the async path has no observable
failure outcome. -/
theorem c7_async_result_always_hash (data : String) :
    threadBodyCalls evpOk data = [generateHash evpOk data] ∧
    generateHash evpOk data = sha256hex data ∧
    (generateHash evpOk data).length = 64 ∧
    generateHash evpOk data ≠ "" := by
  have hlen : (generateHash evpOk data).length = 64 := by
    show (hexEncode (sha256 (strBytes data))).length = 64
    rw [hexEncode_length, sha256_length]
  refine ⟨rfl, rfl, hlen, ?_⟩
  intro hempty
  rw [hempty] at hlen
  exact absurd hlen (by decide)

/-- C8: for every input, `generateHash` returns either `""` (one of the
four EVP error branches) or the hex encoding of the 32-byte SHA-256
digest of the input bytes — a 64-character string all of whose
characters are lowercase hex digits.  Determinism is definitional: the
embedded `generateHash` is a pure function of the EVP environment and
the input, reading no other state, so equal inputs give equal outputs. -/
theorem c8_generateHash_shape (env : EvpEnv) (data : String) :
    generateHash env data = "" ∨
    (generateHash env data = hexEncode (sha256 (strBytes data)) ∧
     (sha256 (strBytes data)).length = 32 ∧
     (generateHash env data).length = 64 ∧
     (generateHash env data).data.all isLowerHexDigit = true) := by
  rcases generateHash_empty_or_hex env data with h | h
  · exact Or.inl h
  · refine Or.inr ⟨h, sha256_length _, ?_, ?_⟩
    · rw [h]
      show (hexEncode (sha256 (strBytes data))).length = 64
      rw [hexEncode_length, sha256_length]
    · rw [h]
      exact hexEncode_all_lower _ (sha256_lt _)

/-- C9: `decompressFile` returns `true` for every pair of paths.  Its
entire body in the source is `return true;` — it inspects neither path
and performs no file operation, which is why the embedded function is a
constant ignoring both arguments. -/
theorem c9_decompressFile_always_true (inputPath outputPath : String) :
    decompressFile inputPath outputPath = true := rfl

/-- C10: `hasErrors` is true exactly when `getLastError` is non-empty
(it is literally `!lastError_.empty()`), and after `clearErrors` the
processor reports no errors and an empty last error.  Both queries are
`const` in the source and are pure functions of the state in the
embedding, so neither modifies the error state. -/
theorem c10_error_state_consistency (s : ErrorState) :
    (hasErrors s = true ↔ getLastError s ≠ "") ∧
    hasErrors (clearErrors s) = false ∧
    getLastError (clearErrors s) = "" := by
  refine ⟨?_, rfl, rfl⟩
  have h := String.isEmpty_iff s.lastError
  simp [hasErrors, getLastError, ← h]

end DataProc
